import Mathlib

/-!
Verification development for an ST7789V SPI display driver and its
PIL/numpy animation utilities.

The definitions below are shallow embeddings of the Python source:
  * the RGB565 pixel codec (scalar path of `ST7789V_Driver.display`
    and numpy bulk path of `pil_to_rgb565_bytes`),
  * the driver protocol layer (`_write_command`, `_write_data`,
    `set_window`, `set_rotation`, `_init_display`, `write_pixels`,
    `close`) as trace-producing functions over an event alphabet,
  * the bounding-box merge `merge_bboxes`,
  * the bouncing-ball physics `Ball.update_position` over ℚ.
Machine bytes are Nat with explicit bounds or `% 256` / `% 65536`
where the source's fixed-width arithmetic matters.
-/

namespace Pilcd

/-! ### Pixel codec

Scalar path (from `ST7789V_Driver.display`, PIL-only branch):
  `rgb565 = ((r & 0xF8) << 8) | ((g & 0xFC) << 3) | (b >> 3)`
  then two bytes appended: `rgb565 >> 8`, `rgb565 & 0xFF`.

Bulk path (from `pil_to_rgb565_bytes` / numpy branch of `display`):
  `r16 = r >> 3; g16 = g >> 2; b16 = b >> 3` as uint16,
  `v = (r16 << 11) | (g16 << 5) | b16`, then `byteswap().tobytes()`
  which emits each pixel as the two bytes `v >> 8`, `v % 256`.
-/

def rgb565_scalar (r g b : Nat) : Nat :=
  ((r &&& 0xF8) <<< 8) ||| ((g &&& 0xFC) <<< 3) ||| (b >>> 3)

def scalarPixelBytes (r g b : Nat) : List Nat :=
  [rgb565_scalar r g b >>> 8, rgb565_scalar r g b &&& 0xFF]

def rgb565_bulk (r g b : Nat) : Nat :=
  (((r >>> 3) <<< 11) ||| ((g >>> 2) <<< 5) ||| (b >>> 3)) % 65536

def bulkPixelBytes (r g b : Nat) : List Nat :=
  [rgb565_bulk r g b >>> 8, rgb565_bulk r g b % 256]

/-- A pixel is an (r, g, b) triple of channel values. -/
abbrev Pixel := Nat × Nat × Nat

/-- Row-major scalar encoding of a rectangular block (the PIL-only
double loop of `display`). -/
def encodeBlockScalar (rows : List (List Pixel)) : List Nat :=
  rows.flatMap (fun row => row.flatMap (fun p => scalarPixelBytes p.1 p.2.1 p.2.2))

/-- Row-major bulk encoding of a rectangular block (the numpy
vectorised path, flattened row-major by `tobytes`). -/
def encodeBlockBulk (rows : List (List Pixel)) : List Nat :=
  rows.flatMap (fun row => row.flatMap (fun p => bulkPixelBytes p.1 p.2.1 p.2.2))

/-- All channels of all pixels of the block are 8-bit values. -/
def blockBounded (rows : List (List Pixel)) : Prop :=
  ∀ row ∈ rows, ∀ p ∈ row, p.1 < 256 ∧ p.2.1 < 256 ∧ p.2.2 < 256

instance (rows : List (List Pixel)) : Decidable (blockBounded rows) := by
  unfold blockBounded; infer_instance

/-! ### Bounding boxes (`merge_bboxes` in pil_animation_utils.py) -/

structure Box where
  x0 : ℤ
  y0 : ℤ
  x1 : ℤ
  y1 : ℤ
  deriving DecidableEq, Repr

/-- `merge_bboxes`: `if not bbox1: return bbox2; if not bbox2: return
bbox1;` else componentwise min/max. -/
def merge_bboxes : Option Box → Option Box → Option Box
  | none, b2 => b2
  | some b1, none => some b1
  | some b1, some b2 =>
      some ⟨min b1.x0 b2.x0, min b1.y0 b2.y0, max b1.x1 b2.x1, max b1.y1 b2.y1⟩

/-- Axis-aligned containment: `outer` contains `inner`. -/
def boxContains (outer inner : Box) : Prop :=
  outer.x0 ≤ inner.x0 ∧ outer.y0 ≤ inner.y0 ∧
  inner.x1 ≤ outer.x1 ∧ inner.y1 ≤ outer.y1

instance (outer inner : Box) : Decidable (boxContains outer inner) := by
  unfold boxContains; infer_instance

/-! ### Driver protocol layer (st7789v_driver.py)

Hardware side effects are modelled as a trace of events: GPIO line
writes, SPI byte writes, sleeps (milliseconds), closing the SPI handle
and stopping the pigpio connection. -/

inductive Ev where
  | gpio (pin level : Nat)
  | spi (bytes : List Nat)
  | spiClose
  | piStop
  | sleepMs (ms : Nat)
  deriving DecidableEq, Repr

inductive DriverErr where
  | invalidArgument
  | transferError
  | runtimeError
  | attributeError
  deriving DecidableEq, Repr

def RST_PIN : Nat := 19
def DC_PIN : Nat := 18
def BACKLIGHT_PIN : Nat := 20

def CMD_SWRESET : Nat := 0x01
def CMD_SLPOUT : Nat := 0x11
def CMD_INVON : Nat := 0x21
def CMD_DISPON : Nat := 0x29
def CMD_CASET : Nat := 0x2A
def CMD_RASET : Nat := 0x2B
def CMD_RAMWR : Nat := 0x2C
def CMD_MADCTL : Nat := 0x36
def CMD_COLMOD : Nat := 0x3A
def CMD_E0 : Nat := 0xE0
def CMD_E1 : Nat := 0xE1

/-- `_write_command`: pull DC low, write the single command byte. -/
def write_command (c : Nat) : List Ev :=
  [.gpio DC_PIN 0, .spi [c]]

/-- `_write_data`: pull DC high, write the payload bytes. -/
def write_data (d : List Nat) : List Ev :=
  [.gpio DC_PIN 1, .spi d]

/-- `set_window`: CASET with the two big-endian column coordinates,
RASET with the two big-endian row coordinates, then RAMWR. -/
def set_window (x0 y0 x1 y1 : Nat) : List Ev :=
  write_command CMD_CASET ++
    write_data [x0 >>> 8, x0 &&& 0xFF, x1 >>> 8, x1 &&& 0xFF] ++
  write_command CMD_RASET ++
    write_data [y0 >>> 8, y0 &&& 0xFF, y1 >>> 8, y1 &&& 0xFF] ++
  write_command CMD_RAMWR

/-- `_init_display`, transcribed statement by statement (sleeps in
milliseconds: 0.01 s → 10, 0.150 s → 150, 0.500 s → 500, 0.1 s → 100). -/
def init_display : List Ev :=
  [.gpio RST_PIN 1, .sleepMs 10, .gpio RST_PIN 0, .sleepMs 10,
   .gpio RST_PIN 1, .sleepMs 150] ++
  write_command CMD_SWRESET ++ [.sleepMs 150] ++
  write_command CMD_SLPOUT ++ [.sleepMs 500] ++
  write_command CMD_COLMOD ++ write_data [0x55] ++
  write_command 0xB2 ++ write_data [0x0C, 0x0C, 0x00, 0x33, 0x33] ++
  write_command 0xB7 ++ write_data [0x35] ++
  write_command 0xBB ++ write_data [0x19] ++
  write_command 0xC0 ++ write_data [0x2C] ++
  write_command 0xC2 ++ write_data [0x01, 0xFF] ++
  write_command 0xC3 ++ write_data [0x11] ++
  write_command 0xC4 ++ write_data [0x20] ++
  write_command 0xC6 ++ write_data [0x0F] ++
  write_command 0xD0 ++ write_data [0xA4, 0xA1] ++
  write_command CMD_E0 ++
    write_data [0xD0, 0x00, 0x02, 0x07, 0x0A, 0x28, 0x32, 0x44,
                0x42, 0x06, 0x0E, 0x12, 0x14, 0x17, 0x00] ++
  write_command CMD_E1 ++
    write_data [0xD0, 0x00, 0x02, 0x07, 0x0A, 0x28, 0x31, 0x54,
                0x47, 0x0E, 0x1C, 0x17, 0x1B, 0x1B, 0x00] ++
  write_command CMD_INVON ++
  write_command CMD_DISPON ++ [.sleepMs 100] ++
  [.gpio BACKLIGHT_PIN 1]

/-- One entry of the data-driven initialisation table: a command, its
payload bytes (possibly empty) and a settle delay in ms (possibly 0). -/
structure InitEntry where
  cmd : Nat
  payload : List Nat
  delayMs : Nat
  deriving DecidableEq, Repr

/-- Run one table entry: the command write, the payload write when the
payload is nonempty, the settle sleep when the delay is nonzero. -/
def runEntry (e : InitEntry) : List Ev :=
  write_command e.cmd ++
  (if e.payload = [] then [] else write_data e.payload) ++
  (if e.delayMs = 0 then [] else [.sleepMs e.delayMs])

def runTable (t : List InitEntry) : List Ev :=
  t.flatMap runEntry

/-- The hardware reset pulse that precedes the register programming. -/
def hwResetTrace : List Ev :=
  [.gpio RST_PIN 1, .sleepMs 10, .gpio RST_PIN 0, .sleepMs 10,
   .gpio RST_PIN 1, .sleepMs 150]

/-- The register-initialisation sequence of `_init_display` as an
ordered table of (command, payload, settle delay) entries. -/
def initTable : List InitEntry :=
  [⟨CMD_SWRESET, [], 150⟩,
   ⟨CMD_SLPOUT, [], 500⟩,
   ⟨CMD_COLMOD, [0x55], 0⟩,
   ⟨0xB2, [0x0C, 0x0C, 0x00, 0x33, 0x33], 0⟩,
   ⟨0xB7, [0x35], 0⟩,
   ⟨0xBB, [0x19], 0⟩,
   ⟨0xC0, [0x2C], 0⟩,
   ⟨0xC2, [0x01, 0xFF], 0⟩,
   ⟨0xC3, [0x11], 0⟩,
   ⟨0xC4, [0x20], 0⟩,
   ⟨0xC6, [0x0F], 0⟩,
   ⟨0xD0, [0xA4, 0xA1], 0⟩,
   ⟨CMD_E0, [0xD0, 0x00, 0x02, 0x07, 0x0A, 0x28, 0x32, 0x44,
             0x42, 0x06, 0x0E, 0x12, 0x14, 0x17, 0x00], 0⟩,
   ⟨CMD_E1, [0xD0, 0x00, 0x02, 0x07, 0x0A, 0x28, 0x31, 0x54,
             0x47, 0x0E, 0x1C, 0x17, 0x1B, 0x1B, 0x00], 0⟩,
   ⟨CMD_INVON, [], 0⟩,
   ⟨CMD_DISPON, [], 100⟩]

/-! ### Rotation (`set_rotation`) -/

/-- The dimension/rotation part of the driver state. -/
structure DriverState where
  nativeWidth : Nat
  nativeHeight : Nat
  width : Nat
  height : Nat
  rotation : Nat
  deriving DecidableEq, Repr

/-- `set_rotation`: the MADCTL command byte is written first, then the
rotation value is dispatched; an unrecognised value raises ValueError
after that command byte, leaving the state unchanged. -/
def set_rotation (s : DriverState) (rotation : Nat) :
    List Ev × Except DriverErr DriverState :=
  let pre := write_command CMD_MADCTL
  if rotation = 0 then
    (pre ++ write_data [0x00],
     .ok { s with width := s.nativeWidth, height := s.nativeHeight,
                  rotation := 0 })
  else if rotation = 90 then
    (pre ++ write_data [0x60],
     .ok { s with width := s.nativeHeight, height := s.nativeWidth,
                  rotation := 90 })
  else if rotation = 180 then
    (pre ++ write_data [0xC0],
     .ok { s with width := s.nativeWidth, height := s.nativeHeight,
                  rotation := 180 })
  else if rotation = 270 then
    (pre ++ write_data [0xA0],
     .ok { s with width := s.nativeHeight, height := s.nativeWidth,
                  rotation := 270 })
  else
    (pre, .error .invalidArgument)

/-- The driver state right after `__init__` assigns dimensions and
applies the default `rotation=90` on the 240×320 panel. -/
def defaultDriverState : DriverState :=
  ⟨240, 320, 320, 240, 90⟩

/-- The state after a `set_rotation` call, unchanged when the call
raises. -/
def after_rotation (s : DriverState) (r : Nat) : DriverState :=
  match (set_rotation s r).2 with
  | .ok s2 => s2
  | .error _ => s

/-! ### Pixel streaming (`write_pixels`)

`write_pixels` chunks the byte sequence into 4096-byte slices and
issues one blocking `spi_write` per slice.  To examine the retry
behaviour the bus is modelled by a fault oracle mapping the index of
each `spi_write` call to whether that call raises a transfer fault;
a raised fault propagates out of the Python loop immediately. -/

def CHUNK_SIZE : Nat := 4096

/-- Split a byte sequence into consecutive `CHUNK_SIZE` slices
(`pixel_bytes[i:i+chunk_size]` for `i = 0, 4096, 8192, ...`). -/
def chunks (l : List Nat) : List (List Nat) :=
  if l = [] then []
  else l.take CHUNK_SIZE :: chunks (l.drop CHUNK_SIZE)
termination_by l.length
decreasing_by
  simp only [List.length_drop, CHUNK_SIZE]
  have : l.length ≠ 0 := fun h => by
    simp [List.length_eq_zero] at h; simp_all
  omega

/-- One `spi_write` attempt: starting byte offset, the chunk, and
whether the call succeeded. -/
structure Attempt where
  offset : Nat
  chunk : List Nat
  ok : Bool
  deriving DecidableEq, Repr

/-- Stream a list of chunks from a byte offset, consulting the fault
oracle with a running call index; the first fault aborts the loop. -/
def streamChunks (cs : List (List Nat)) (offset callIdx : Nat)
    (fault : Nat → Bool) : List Attempt × Except DriverErr Unit :=
  match cs with
  | [] => ([], .ok ())
  | c :: rest =>
      if fault callIdx then
        ([⟨offset, c, false⟩], .error .transferError)
      else
        let r := streamChunks rest (offset + CHUNK_SIZE) (callIdx + 1) fault
        (⟨offset, c, true⟩ :: r.1, r.2)

/-- `write_pixels` under a fault oracle: DC high once, then the
chunked stream. -/
def write_pixels (pixelBytes : List Nat) (fault : Nat → Bool) :
    List Attempt × Except DriverErr Unit :=
  streamChunks (chunks pixelBytes) 0 0 fault

/-! ### Open / close (`__init__`, `close`)

`__init__` connects to pigpio; if the daemon is unreachable it raises
before the pin attributes are assigned.  Otherwise it configures the
pins and opens the SPI channel; a negative handle raises after the pin
and handle attributes are assigned.  `close` reads
`self.backlight_pin` (an AttributeError when it was never assigned),
writes the backlight low, closes a non-negative SPI handle, and in the
`finally` block stops the pigpio connection when it is connected. -/

structure OpenCtx where
  piConnected : Bool
  pinsAssigned : Bool
  spiHandleAssigned : Bool
  spiHandle : Int
  deriving DecidableEq, Repr

/-- The attribute state `__init__` leaves behind, with the error it
raises when the pigpio daemon is down or `spi_open` fails. -/
def initDriver (piConnected : Bool) (spiOpenResult : Int) :
    OpenCtx × Except DriverErr Unit :=
  if piConnected = false then
    (⟨false, false, false, 0⟩, .error .runtimeError)
  else if spiOpenResult < 0 then
    (⟨true, true, true, spiOpenResult⟩, .error .runtimeError)
  else
    (⟨true, true, true, spiOpenResult⟩, .ok ())

/-- `close`: the try block turns the backlight off and closes a valid
SPI handle; the finally block stops a connected pigpio handle; a
missing `backlight_pin` attribute raises AttributeError out of the
try block after the finally block runs. -/
def closeDriver (c : OpenCtx) : List Ev × Except DriverErr Unit :=
  let fin : List Ev := if c.piConnected then [.piStop] else []
  if c.pinsAssigned = false then
    (fin, .error .attributeError)
  else
    ([Ev.gpio BACKLIGHT_PIN 0] ++
       (if c.spiHandleAssigned ∧ 0 ≤ c.spiHandle then [Ev.spiClose] else []) ++
       fin,
     .ok ())

/-! ### Entity physics (`Ball.update_position`)

Python floats are modelled by ℚ; the update uses only addition,
multiplication, negation and comparisons, all exact on ℚ. -/

structure Ball where
  x : ℚ
  y : ℚ
  radius : ℚ
  speed_x : ℚ
  speed_y : ℚ
  deriving DecidableEq, Repr

/-- One axis of `Ball.update_position`: advance by `speed * delta_t`,
test the low wall (clamp to `radius`, negate speed), then test the high
wall on the possibly clamped position (clamp to `bound - radius - 1`,
negate speed).  The x block and the y block of the source are this
function at the respective coordinate. -/
def axis_update (pos speed radius deltaT bound : ℚ) : ℚ × ℚ :=
  let p := pos + speed * deltaT
  let q := if p - radius < 0 then (radius, -speed) else (p, speed)
  if q.1 + radius ≥ bound then (bound - radius - 1, -q.2) else q

/-- `Ball.update_position`: the sequential wall tests of the source,
axis by axis. -/
def update_position (b : Ball) (deltaT screenWidth screenHeight : ℚ) :
    Ball :=
  let px := axis_update b.x b.speed_x b.radius deltaT screenWidth
  let py := axis_update b.y b.speed_y b.radius deltaT screenHeight
  ⟨px.1, py.1, b.radius, px.2, py.2⟩

/-- The claimed confinement region [R, W-R] × [R, H-R]. -/
def ballInBounds (b : Ball) (screenWidth screenHeight : ℚ) : Prop :=
  b.radius ≤ b.x ∧ b.x ≤ screenWidth - b.radius ∧
  b.radius ≤ b.y ∧ b.y ≤ screenHeight - b.radius

instance (b : Ball) (w h : ℚ) : Decidable (ballInBounds b w h) := by
  unfold ballInBounds; infer_instance

/-- Any number of delta-time updates, one per element of `dts`. -/
def iterate_updates (b : Ball) (dts : List ℚ)
    (screenWidth screenHeight : ℚ) : Ball :=
  dts.foldl (fun s dt => update_position s dt screenWidth screenHeight) b

/-! ## Helper lemmas -/

set_option maxRecDepth 4096

theorem red_channel_eq : ∀ r : Fin 256,
    ((r.val &&& 0xF8) <<< 8) = (r.val >>> 3) <<< 11 := by decide

theorem green_channel_eq : ∀ g : Fin 256,
    ((g.val &&& 0xFC) <<< 3) = (g.val >>> 2) <<< 5 := by decide

theorem red_channel_lt : ∀ r : Fin 256,
    (r.val >>> 3) <<< 11 < 65536 := by decide

theorem green_channel_lt : ∀ g : Fin 256,
    (g.val >>> 2) <<< 5 < 65536 := by decide

theorem blue_channel_lt : ∀ b : Fin 256, (b.val >>> 3) < 65536 := by decide

theorem low_byte_eq_mod (c : Nat) : c &&& 0xFF = c % 256 := by
  have := Nat.and_pow_two_sub_one_eq_mod c 8
  norm_num at this
  exact this

theorem high_byte_eq_div (c : Nat) : c >>> 8 = c / 256 := by
  rw [Nat.shiftRight_eq_div_pow]

theorem rgb565_bulk_eq_scalar (r g b : Nat)
    (hr : r < 256) (hg : g < 256) (hb : b < 256) :
    rgb565_bulk r g b = rgb565_scalar r g b ∧
    rgb565_scalar r g b < 65536 := by
  have hre : (r &&& 0xF8) <<< 8 = (r >>> 3) <<< 11 := red_channel_eq ⟨r, hr⟩
  have hge : (g &&& 0xFC) <<< 3 = (g >>> 2) <<< 5 := green_channel_eq ⟨g, hg⟩
  have ha : (r >>> 3) <<< 11 < 65536 := red_channel_lt ⟨r, hr⟩
  have hb2 : (g >>> 2) <<< 5 < 65536 := green_channel_lt ⟨g, hg⟩
  have hc : b >>> 3 < 65536 := blue_channel_lt ⟨b, hb⟩
  have h16 : (65536 : Nat) = 2 ^ 16 := by norm_num
  have hv : ((r >>> 3) <<< 11 ||| (g >>> 2) <<< 5 ||| b >>> 3) < 65536 := by
    rw [h16] at ha hb2 hc ⊢
    exact Nat.or_lt_two_pow (Nat.or_lt_two_pow ha hb2) hc
  constructor
  · unfold rgb565_bulk rgb565_scalar
    rw [hre, hge]
    exact Nat.mod_eq_of_lt hv
  · unfold rgb565_scalar
    rw [hre, hge]
    exact hv

theorem bulk_pixel_eq_scalar (r g b : Nat)
    (hr : r < 256) (hg : g < 256) (hb : b < 256) :
    bulkPixelBytes r g b = scalarPixelBytes r g b := by
  obtain ⟨hv, _⟩ := rgb565_bulk_eq_scalar r g b hr hg hb
  unfold bulkPixelBytes scalarPixelBytes
  rw [hv, low_byte_eq_mod]

theorem flatMap_congr_mem {α β : Type} {f g : α → List β} :
    ∀ l : List α, (∀ a ∈ l, f a = g a) → l.flatMap f = l.flatMap g := by
  intro l
  induction l with
  | nil => intro _; rfl
  | cons a t ih =>
      intro h
      simp only [List.flatMap_cons]
      rw [h a (List.mem_cons_self a t), ih (fun x hx => h x (List.mem_cons_of_mem a hx))]

theorem chunks_nil : chunks [] = [] := by
  rw [chunks]
  simp

theorem chunks_small (l : List Nat) (h : l ≠ [])
    (h2 : l.length ≤ CHUNK_SIZE) : chunks l = [l] := by
  rw [chunks, if_neg h, List.take_of_length_le h2,
     List.drop_of_length_le h2, chunks_nil]

theorem chunks_flatten (l : List Nat) : (chunks l).flatten = l := by
  rw [chunks]
  by_cases h : l = []
  · simp [h]
  · simp only [if_neg h, List.flatten_cons,
      chunks_flatten (l.drop CHUNK_SIZE), List.take_append_drop]
termination_by l.length
decreasing_by
  simp only [List.length_drop, CHUNK_SIZE]
  have : l.length ≠ 0 := fun h2 => by
    simp [List.length_eq_zero] at h2; simp_all
  omega

theorem streamChunks_props (fault : Nat → Bool) :
    ∀ (cs : List (List Nat)) (off idx : Nat),
      ((streamChunks cs off idx fault).1.map Attempt.offset =
        List.range' off (streamChunks cs off idx fault).1.length
          CHUNK_SIZE) ∧
      (((streamChunks cs off idx fault).1.filter
          (fun a => !a.ok)).length ≤ 1) ∧
      ((streamChunks cs off idx fault).2 = Except.ok () ↔
        (streamChunks cs off idx fault).1.map Attempt.chunk = cs ∧
        ∀ a ∈ (streamChunks cs off idx fault).1, a.ok = true) ∧
      ((streamChunks cs off idx fault).2 =
          Except.error DriverErr.transferError ↔
        ∃ a ∈ (streamChunks cs off idx fault).1, a.ok = false) := by
  intro cs
  induction cs with
  | nil =>
      intro off idx
      simp [streamChunks]
  | cons c rest ih =>
      intro off idx
      by_cases h : fault idx = true
      · simp [streamChunks, h]
      · have ihr := ih (off + CHUNK_SIZE) (idx + 1)
        simp only [streamChunks, Bool.not_eq_true] at h ⊢
        simp only [h, Bool.false_eq_true, if_false]
        simp only [List.map_cons, List.length_cons, List.range'_succ,
          List.filter_cons, Bool.not_true, List.mem_cons, forall_eq_or_imp,
          List.cons.injEq, exists_eq_or_imp]
        refine ⟨?_, ?_, ?_, ?_⟩
        · simp [ihr.1]
        · simpa using ihr.2.1
        · rw [ihr.2.2.1]
          simp
        · rw [ihr.2.2.2]
          simp

theorem axis_update_eq (p s r dt B : ℚ) :
    axis_update p s r dt B =
      if p + s * dt - r < 0 then
        (if r + r ≥ B then (B - r - 1, s) else (r, -s))
      else if p + s * dt + r ≥ B then (B - r - 1, -s)
      else (p + s * dt, s) := by
  unfold axis_update
  dsimp only
  by_cases h1 : p + s * dt - r < 0
  · rw [if_pos h1, if_pos h1]
    by_cases h2 : r + r ≥ B
    · rw [if_pos h2, if_pos h2, neg_neg]
    · rw [if_neg h2, if_neg h2]
  · rw [if_neg h1, if_neg h1]

theorem axis_update_bounds (p s r dt B : ℚ) (hb : 2 * r + 1 ≤ B) :
    r ≤ (axis_update p s r dt B).1 ∧ (axis_update p s r dt B).1 ≤ B - r := by
  rw [axis_update_eq]
  have hrr : ¬ (r + r ≥ B) := by linarith
  by_cases h1 : p + s * dt - r < 0
  · rw [if_pos h1, if_neg hrr]
    exact ⟨le_refl r, by linarith⟩
  · rw [if_neg h1]
    by_cases h2 : p + s * dt + r ≥ B
    · rw [if_pos h2]
      exact ⟨show r ≤ B - r - 1 by linarith, show B - r - 1 ≤ B - r by linarith⟩
    · rw [if_neg h2]
      exact ⟨show r ≤ p + s * dt by linarith,
             show p + s * dt ≤ B - r by linarith⟩

theorem axis_update_speed (p s r dt B : ℚ) (hb : 2 * r + 1 ≤ B) :
    (axis_update p s r dt B).2 =
      if p + s * dt - r < 0 ∨ p + s * dt + r ≥ B then -s else s := by
  rw [axis_update_eq]
  have hrr : ¬ (r + r ≥ B) := by linarith
  by_cases h1 : p + s * dt - r < 0
  · rw [if_pos h1, if_neg hrr, if_pos (Or.inl h1)]
  · rw [if_neg h1]
    by_cases h2 : p + s * dt + r ≥ B
    · rw [if_pos h2, if_pos (Or.inr h2)]
    · rw [if_neg h2, if_neg (fun h => h.elim h1 h2)]

theorem update_position_inbounds (b : Ball) (dt W H : ℚ)
    (hW : 2 * b.radius + 1 ≤ W) (hH : 2 * b.radius + 1 ≤ H) :
    ballInBounds (update_position b dt W H) W H := by
  obtain ⟨hx1, hx2⟩ := axis_update_bounds b.x b.speed_x b.radius dt W hW
  obtain ⟨hy1, hy2⟩ := axis_update_bounds b.y b.speed_y b.radius dt H hH
  exact ⟨hx1, hx2, hy1, hy2⟩

theorem iterate_updates_inbounds (W H : ℚ) (dts : List ℚ) :
    ∀ b : Ball, 2 * b.radius + 1 ≤ W → 2 * b.radius + 1 ≤ H →
      ballInBounds b W H → ballInBounds (iterate_updates b dts W H) W H := by
  induction dts with
  | nil => intro b _ _ hin; exact hin
  | cons dt rest ih =>
      intro b hW hH hin
      exact ih (update_position b dt W H) hW hH
        (update_position_inbounds b dt W H hW hH)

/-! ## Claim theorems -/

/-- C1: for every RGB triple with channels in [0,255], the codec encodes
the pixel as the 16-bit value `((r & 0xF8)<<8) | ((g & 0xFC)<<3) | (b>>3)`
emitted high byte first (the two bytes are that value's quotient and
remainder by 256), and the scalar per-pixel path and the numpy bulk path
produce byte-identical output on every rectangular block. -/
theorem C1_pixel_codec_refinement :
    (∀ r g b : Nat, r < 256 → g < 256 → b < 256 →
      scalarPixelBytes r g b =
        [(((r &&& 0xF8) <<< 8) ||| ((g &&& 0xFC) <<< 3) ||| (b >>> 3)) / 256,
         (((r &&& 0xF8) <<< 8) ||| ((g &&& 0xFC) <<< 3) ||| (b >>> 3)) % 256] ∧
      (((r &&& 0xF8) <<< 8) ||| ((g &&& 0xFC) <<< 3) ||| (b >>> 3)) < 65536 ∧
      bulkPixelBytes r g b = scalarPixelBytes r g b) ∧
    (∀ rows : List (List Pixel), blockBounded rows →
      encodeBlockBulk rows = encodeBlockScalar rows) := by
  constructor
  · intro r g b hr hg hb
    refine ⟨?_, ?_, bulk_pixel_eq_scalar r g b hr hg hb⟩
    · unfold scalarPixelBytes rgb565_scalar
      rw [high_byte_eq_div, low_byte_eq_mod]
    · exact (rgb565_bulk_eq_scalar r g b hr hg hb).2
  · intro rows h
    unfold encodeBlockBulk encodeBlockScalar
    refine flatMap_congr_mem rows ?_
    intro row hrow
    refine flatMap_congr_mem row ?_
    intro p hp
    obtain ⟨h1, h2, h3⟩ := h row hrow p hp
    exact bulk_pixel_eq_scalar p.1 p.2.1 p.2.2 h1 h2 h3

/-- Witness for C1 at concrete pixels and a concrete 2×1 block. -/
theorem C1_pixel_codec_refinement_witness :
    bulkPixelBytes 255 128 37 = scalarPixelBytes 255 128 37 ∧
    encodeBlockBulk [[(12, 200, 7)], [(255, 255, 255)]] =
      encodeBlockScalar [[(12, 200, 7)], [(255, 255, 255)]] :=
  ⟨(C1_pixel_codec_refinement.1 255 128 37 (by decide) (by decide)
      (by decide)).2.2,
   C1_pixel_codec_refinement.2 [[(12, 200, 7)], [(255, 255, 255)]]
     (by decide)⟩

/-- C2: `set_window` emits CASET with the four bytes
`[x0>>8, x0&0xFF, x1>>8, x1&0xFF]`, RASET with
`[y0>>8, y0&0xFF, y1>>8, y1&0xFF]` (each coordinate two bytes, high byte
first: the bytes are the coordinate's quotient and remainder by 256 and
reassemble to it), then RAMWR; and `set_window 0 0 9 9` emits column and
row bytes `[0x00, 0x00, 0x00, 0x09]`. -/
theorem C2_set_window_encoding (x0 y0 x1 y1 : Nat)
    (hx0 : x0 < 65536) (hy0 : y0 < 65536)
    (hx1 : x1 < 65536) (hy1 : y1 < 65536) :
    set_window x0 y0 x1 y1 =
      [.gpio DC_PIN 0, .spi [CMD_CASET],
       .gpio DC_PIN 1, .spi [x0 >>> 8, x0 &&& 0xFF, x1 >>> 8, x1 &&& 0xFF],
       .gpio DC_PIN 0, .spi [CMD_RASET],
       .gpio DC_PIN 1, .spi [y0 >>> 8, y0 &&& 0xFF, y1 >>> 8, y1 &&& 0xFF],
       .gpio DC_PIN 0, .spi [CMD_RAMWR]] ∧
    (∀ c ∈ [x0, y0, x1, y1],
      c >>> 8 = c / 256 ∧ c &&& 0xFF = c % 256 ∧
      256 * (c >>> 8) + (c &&& 0xFF) = c ∧
      c >>> 8 < 256 ∧ c &&& 0xFF < 256) ∧
    set_window 0 0 9 9 =
      [.gpio DC_PIN 0, .spi [0x2A],
       .gpio DC_PIN 1, .spi [0x00, 0x00, 0x00, 0x09],
       .gpio DC_PIN 0, .spi [0x2B],
       .gpio DC_PIN 1, .spi [0x00, 0x00, 0x00, 0x09],
       .gpio DC_PIN 0, .spi [0x2C]] := by
  refine ⟨rfl, ?_, by decide⟩
  intro c hc
  have hlt : c < 65536 := by
    simp only [List.mem_cons, List.not_mem_nil, or_false] at hc
    rcases hc with rfl | rfl | rfl | rfl <;> assumption
  refine ⟨high_byte_eq_div c, low_byte_eq_mod c, ?_, ?_, ?_⟩
  · rw [high_byte_eq_div, low_byte_eq_mod]; omega
  · rw [high_byte_eq_div]; omega
  · rw [low_byte_eq_mod]; omega

/-- Witness for C2 at the window (0,0,9,9). -/
theorem C2_set_window_encoding_witness :
    set_window 0 0 9 9 =
      [.gpio DC_PIN 0, .spi [0x2A],
       .gpio DC_PIN 1, .spi [0x00, 0x00, 0x00, 0x09],
       .gpio DC_PIN 0, .spi [0x2B],
       .gpio DC_PIN 1, .spi [0x00, 0x00, 0x00, 0x09],
       .gpio DC_PIN 0, .spi [0x2C]] :=
  (C2_set_window_encoding 0 0 9 9 (by decide) (by decide) (by decide)
    (by decide)).2.2

/-- C5: `merge_bboxes` of `None` and B is B unchanged, and the merge of
two boxes contains both and is contained in every axis-aligned box
containing both (it is the smallest such box). -/
theorem C5_merge_bboxes_spec :
    (∀ b : Option Box, merge_bboxes none b = b) ∧
    (∀ A B M : Box, merge_bboxes (some A) (some B) = some M →
      boxContains M A ∧ boxContains M B ∧
      ∀ C : Box, boxContains C A → boxContains C B → boxContains C M) := by
  constructor
  · intro b; rfl
  · intro A B M h
    injection h with h
    subst h
    unfold boxContains
    refine ⟨⟨min_le_left _ _, min_le_left _ _, le_max_left _ _,
             le_max_left _ _⟩,
            ⟨min_le_right _ _, min_le_right _ _, le_max_right _ _,
             le_max_right _ _⟩, ?_⟩
    intro C hA hB
    exact ⟨le_min hA.1 hB.1, le_min hA.2.1 hB.2.1,
           max_le hA.2.2.1 hB.2.2.1, max_le hA.2.2.2 hB.2.2.2⟩

/-- C3: `_init_display` is the hardware reset pulse followed by the
register-initialisation sequence run off the fixed ordered table of
(command, payload, settle delay) entries — sleep-out, pixel format 0x55
(16 bits/pixel), the voltage and gamma registers, display inversion and
display-on — after which the backlight is turned on as the final event. -/
theorem C3_init_display_sequence :
    init_display = hwResetTrace ++ runTable initTable ++
      [Ev.gpio BACKLIGHT_PIN 1] ∧
    initTable.map InitEntry.cmd =
      [CMD_SWRESET, CMD_SLPOUT, CMD_COLMOD, 0xB2, 0xB7, 0xBB, 0xC0,
       0xC2, 0xC3, 0xC4, 0xC6, 0xD0, CMD_E0, CMD_E1, CMD_INVON,
       CMD_DISPON] ∧
    (⟨CMD_COLMOD, [0x55], 0⟩ : InitEntry) ∈ initTable ∧
    (⟨CMD_SWRESET, [], 150⟩ : InitEntry) ∈ initTable ∧
    (⟨CMD_SLPOUT, [], 500⟩ : InitEntry) ∈ initTable ∧
    (⟨CMD_INVON, [], 0⟩ : InitEntry) ∈ initTable ∧
    initTable.getLast? = some ⟨CMD_DISPON, [], 100⟩ := by
  refine ⟨by decide, by decide, by decide, by decide, by decide,
          by decide, by decide⟩

/-- C4 counterexample: from the constructor's default panel state
(rotation 90, effective 320×240 on the 240×320 panel), setRotation(90)
followed by setRotation(0) yields effective width 240, not the original
320, so the round trip does not restore every panel state. -/
theorem C4_rotation_roundtrip_counterexample :
    (after_rotation (after_rotation defaultDriverState 90) 0).width = 240 ∧
    defaultDriverState.width = 320 := by decide

/-- C4 (amended): each accepted rotation writes its MADCTL code
(0°→0x00, 90°→0x60, 180°→0xC0, 270°→0xA0) and sets the effective
dimensions to the native ones for 0°/180° and to their swap for
90°/270°; setRotation(90) followed by setRotation(0) always leaves the
native dimensions, hence restores the original effective dimensions
exactly when the starting state's effective dimensions were the native
ones (rotation 0° or 180°). -/
theorem C4_rotation_spec (s : DriverState) :
    set_rotation s 0 = (write_command CMD_MADCTL ++ write_data [0x00],
      .ok { s with width := s.nativeWidth, height := s.nativeHeight,
                   rotation := 0 }) ∧
    set_rotation s 90 = (write_command CMD_MADCTL ++ write_data [0x60],
      .ok { s with width := s.nativeHeight, height := s.nativeWidth,
                   rotation := 90 }) ∧
    set_rotation s 180 = (write_command CMD_MADCTL ++ write_data [0xC0],
      .ok { s with width := s.nativeWidth, height := s.nativeHeight,
                   rotation := 180 }) ∧
    set_rotation s 270 = (write_command CMD_MADCTL ++ write_data [0xA0],
      .ok { s with width := s.nativeHeight, height := s.nativeWidth,
                   rotation := 270 }) ∧
    (after_rotation (after_rotation s 90) 0).width = s.nativeWidth ∧
    (after_rotation (after_rotation s 90) 0).height = s.nativeHeight ∧
    (s.width = s.nativeWidth → s.height = s.nativeHeight →
      (after_rotation (after_rotation s 90) 0).width = s.width ∧
      (after_rotation (after_rotation s 90) 0).height = s.height) := by
  refine ⟨rfl, rfl, rfl, rfl, rfl, rfl, ?_⟩
  intro h1 h2
  exact ⟨h1.symm, h2.symm⟩

/-- Witness for C4 at a panel state with rotation 0, where the round
trip restores the effective 240×320 exactly. -/
theorem C4_rotation_spec_witness :
    (after_rotation (after_rotation (⟨240, 320, 240, 320, 0⟩ : DriverState)
        90) 0).width = 240 ∧
    (after_rotation (after_rotation (⟨240, 320, 240, 320, 0⟩ : DriverState)
        90) 0).height = 320 :=
  (C4_rotation_spec ⟨240, 320, 240, 320, 0⟩).2.2.2.2.2.2 rfl rfl

/-- C7 counterexample: setRotation(45) raises ValueError, but only
after the MADCTL command byte has been written to the bus — the trace
is not empty, so the invalid value does trigger hardware I/O. -/
theorem C7_invalid_rotation_counterexample :
    (set_rotation defaultDriverState 45).2 =
      Except.error DriverErr.invalidArgument ∧
    (set_rotation defaultDriverState 45).1 =
      [Ev.gpio DC_PIN 0, Ev.spi [CMD_MADCTL]] := ⟨rfl, rfl⟩

/-- C7 (amended): any rotation value other than 0, 90, 180, 270 fails
with ValueError and leaves the dimension state unchanged, but the
rejection happens after the MADCTL command byte was written: exactly
that one command byte is emitted and no data byte follows. -/
theorem C7_invalid_rotation_spec (s : DriverState) (r : Nat)
    (h0 : r ≠ 0) (h90 : r ≠ 90) (h180 : r ≠ 180) (h270 : r ≠ 270) :
    set_rotation s r =
      ([Ev.gpio DC_PIN 0, Ev.spi [CMD_MADCTL]],
       Except.error DriverErr.invalidArgument) ∧
    after_rotation s r = s := by
  have h : set_rotation s r =
      ([Ev.gpio DC_PIN 0, Ev.spi [CMD_MADCTL]],
       Except.error DriverErr.invalidArgument) := by
    unfold set_rotation
    simp [h0, h90, h180, h270, write_command]
  refine ⟨h, ?_⟩
  unfold after_rotation
  rw [h]

/-- Witness for C7 at the rotation value 45. -/
theorem C7_invalid_rotation_spec_witness :
    set_rotation defaultDriverState 45 =
      ([Ev.gpio DC_PIN 0, Ev.spi [CMD_MADCTL]],
       Except.error DriverErr.invalidArgument) ∧
    after_rotation defaultDriverState 45 = defaultDriverState :=
  C7_invalid_rotation_spec defaultDriverState 45 (by decide) (by decide)
    (by decide) (by decide)

/-- C6 counterexample: on a 2×10 screen with radius 1 the only in-bounds
x is 1, yet one update with zero velocity moves the ball to x = 0 < R:
the high-wall clamp `x = screen_width - radius - 1` leaves the claimed
region.  The claim fails without a minimum screen-size assumption. -/
theorem C6_ball_confinement_counterexample :
    ballInBounds ⟨1, 5, 1, 0, 0⟩ 2 10 ∧
    ¬ ballInBounds (update_position ⟨1, 5, 1, 0, 0⟩ 1 2 10) 2 10 := by
  constructor
  · unfold ballInBounds
    norm_num
  · unfold update_position ballInBounds
    rw [axis_update_eq, axis_update_eq]
    norm_num

/-- C6 (amended): provided each screen dimension is at least 2R+1, a
ball starting in [R, W-R] × [R, H-R] stays there after any number of
delta-time updates, and each update inverts the sign of exactly the
velocity component whose wall was contacted, leaving the other
component's update independent of it. -/
theorem C6_ball_physics (b : Ball) (screenW screenH : ℚ)
    (hW : 2 * b.radius + 1 ≤ screenW) (hH : 2 * b.radius + 1 ≤ screenH)
    (hin : ballInBounds b screenW screenH) :
    (∀ dts : List ℚ,
      ballInBounds (iterate_updates b dts screenW screenH) screenW screenH) ∧
    (∀ dt : ℚ,
      (update_position b dt screenW screenH).speed_x =
        (if b.x + b.speed_x * dt - b.radius < 0 ∨
            b.x + b.speed_x * dt + b.radius ≥ screenW
         then -b.speed_x else b.speed_x) ∧
      (update_position b dt screenW screenH).speed_y =
        (if b.y + b.speed_y * dt - b.radius < 0 ∨
            b.y + b.speed_y * dt + b.radius ≥ screenH
         then -b.speed_y else b.speed_y)) := by
  constructor
  · intro dts
    exact iterate_updates_inbounds screenW screenH dts b hW hH hin
  · intro dt
    exact ⟨axis_update_speed b.x b.speed_x b.radius dt screenW hW,
           axis_update_speed b.y b.speed_y b.radius dt screenH hH⟩

/-- Witness for C6 on a 320×240 screen with the demo's radius-20 ball. -/
theorem C6_ball_physics_witness :
    ballInBounds
      (iterate_updates ⟨50, 50, 20, 300, 200⟩ [1/30, 1/30, 1/2] 320 240)
      320 240 ∧
    (update_position ⟨50, 50, 20, 300, 200⟩ 1 320 240).speed_x =
      (if (50 : ℚ) + 300 * 1 - 20 < 0 ∨ (50 : ℚ) + 300 * 1 + 20 ≥ 320
       then -300 else 300) :=
  ⟨(C6_ball_physics ⟨50, 50, 20, 300, 200⟩ 320 240 (by norm_num)
      (by norm_num) (by unfold ballInBounds; norm_num)).1 [1/30, 1/30, 1/2],
   ((C6_ball_physics ⟨50, 50, 20, 300, 200⟩ 320 240 (by norm_num)
      (by norm_num) (by unfold ballInBounds; norm_num)).2 1).1⟩

/-- C10: a position update never changes the magnitude of either
velocity component (only signs flip at walls) nor the radius. -/
theorem C10_speed_magnitude_preserved (b : Ball) (dt screenW screenH : ℚ) :
    |(update_position b dt screenW screenH).speed_x| = |b.speed_x| ∧
    |(update_position b dt screenW screenH).speed_y| = |b.speed_y| ∧
    (update_position b dt screenW screenH).radius = b.radius := by
  unfold update_position
  dsimp only
  refine ⟨?_, ?_, rfl⟩ <;>
    rw [axis_update_eq] <;>
    split_ifs <;>
    first | rfl | exact abs_neg _

/-- C8 counterexample: with a fault on the very first SPI call only (a
retry at the same offset would succeed, the oracle is false from call 1
on), `write_pixels` makes exactly one attempt at offset 0 and surfaces
the fatal TransferError: there is no retry at the chunk offset. -/
theorem C8_no_retry_counterexample :
    write_pixels [1, 2, 3] (fun n => n == 0) =
      ([⟨0, [1, 2, 3], false⟩], Except.error DriverErr.transferError) ∧
    (fun n => n == 0) 1 = false := by
  constructor
  · unfold write_pixels
    rw [chunks_small [1, 2, 3] (by decide) (by decide)]
    simp [streamChunks]
  · rfl

/-- C8 (amended): `write_pixels` streams the bytes in 4096-byte chunks
at strictly increasing offsets 0, 4096, 8192, ... — no chunk offset is
ever attempted twice, so a TransferError is never retried; at most one
attempt fails; the stream succeeds iff every chunk was transmitted in
order without fault, and the chunks reassemble the input exactly. -/
theorem C8_write_pixels_spec (bytes : List Nat) (fault : Nat → Bool) :
    ((write_pixels bytes fault).1.map Attempt.offset =
      List.range' 0 (write_pixels bytes fault).1.length CHUNK_SIZE) ∧
    (((write_pixels bytes fault).1.filter (fun a => !a.ok)).length ≤ 1) ∧
    ((write_pixels bytes fault).2 = Except.ok () ↔
      (write_pixels bytes fault).1.map Attempt.chunk = chunks bytes ∧
      ∀ a ∈ (write_pixels bytes fault).1, a.ok = true) ∧
    ((write_pixels bytes fault).2 = Except.error DriverErr.transferError ↔
      ∃ a ∈ (write_pixels bytes fault).1, a.ok = false) ∧
    (chunks bytes).flatten = bytes :=
  have h := streamChunks_props fault (chunks bytes) 0 0
  ⟨h.1, h.2.1, h.2.2.1, h.2.2.2, chunks_flatten bytes⟩

/-- C9 counterexample: when open failed because the pigpio daemon was
unreachable, the pin attributes were never assigned, and `close()`
raises AttributeError on `self.backlight_pin` — it is not a no-op that
does not throw. -/
theorem C9_close_after_failed_connect_counterexample :
    (initDriver false 0).2 = Except.error DriverErr.runtimeError ∧
    closeDriver (initDriver false 0).1 =
      ([], Except.error DriverErr.attributeError) := ⟨rfl, rfl⟩

/-- C9 (amended): after a successful open, `close` turns the backlight
off, closes the SPI handle and stops the pigpio connection without
throwing; after an open that failed at the SPI-open stage it is safe
(backlight off, invalid handle skipped, connection stopped, no throw);
but after an open that failed because the GPIO daemon was unreachable,
`close` raises AttributeError. -/
theorem C9_close_spec (h : Int) :
    (0 ≤ h →
      closeDriver (initDriver true h).1 =
        ([Ev.gpio BACKLIGHT_PIN 0, Ev.spiClose, Ev.piStop],
         Except.ok ())) ∧
    (h < 0 →
      closeDriver (initDriver true h).1 =
        ([Ev.gpio BACKLIGHT_PIN 0, Ev.piStop], Except.ok ())) ∧
    closeDriver (initDriver false h).1 =
      ([], Except.error DriverErr.attributeError) := by
  refine ⟨?_, ?_, rfl⟩
  · intro hge
    have hinit : initDriver true h = (⟨true, true, true, h⟩, Except.ok ()) := by
      unfold initDriver
      rw [if_neg (by simp), if_neg (not_lt.mpr hge)]
    rw [hinit]
    unfold closeDriver
    simp [hge]
  · intro hlt
    have hinit : initDriver true h =
        (⟨true, true, true, h⟩, Except.error DriverErr.runtimeError) := by
      unfold initDriver
      rw [if_neg (by simp), if_pos hlt]
    rw [hinit]
    unfold closeDriver
    simp [not_le.mpr hlt]

/-- Witness for C9 at handle 5 (successful open) and handle -1 (failed
SPI open). -/
theorem C9_close_spec_witness :
    closeDriver (initDriver true 5).1 =
      ([Ev.gpio BACKLIGHT_PIN 0, Ev.spiClose, Ev.piStop], Except.ok ()) ∧
    closeDriver (initDriver true (-1)).1 =
      ([Ev.gpio BACKLIGHT_PIN 0, Ev.piStop], Except.ok ()) :=
  ⟨(C9_close_spec 5).1 (by norm_num), (C9_close_spec (-1)).2.1 (by norm_num)⟩

/-- Witness for C5 at two concrete boxes. -/
theorem C5_merge_bboxes_spec_witness :
    merge_bboxes none (some ⟨5, 6, 7, 8⟩) = some ⟨5, 6, 7, 8⟩ ∧
    boxContains ⟨0, 0, 3, 3⟩ ⟨0, 0, 2, 2⟩ ∧ boxContains ⟨0, 0, 3, 3⟩ ⟨1, 1, 3, 3⟩ :=
  ⟨C5_merge_bboxes_spec.1 (some ⟨5, 6, 7, 8⟩),
   (C5_merge_bboxes_spec.2 ⟨0, 0, 2, 2⟩ ⟨1, 1, 3, 3⟩ ⟨0, 0, 3, 3⟩ (by decide)).1,
   (C5_merge_bboxes_spec.2 ⟨0, 0, 2, 2⟩ ⟨1, 1, 3, 3⟩ ⟨0, 0, 3, 3⟩ (by decide)).2.1⟩

end Pilcd
